import Mathlib

/-!
Shallow embedding of `src/main.go` (a per-chat timer bot).

Machine integers: Go `time.Duration` is `int64` nanoseconds; all inputs the
bot ever produces stay far below `2^63`, and the parser performs Go's own
explicit overflow checks, so durations are modelled as `Int` (nanoseconds)
with the `2^63` bounds written out exactly where the Go source checks them.

`time.Time` is only ever (a) taken from `time.Now()`, (b) stored, and
(c) rendered with layout `"2006-01-02 15:04:05"`; no arithmetic is done on
it.  It is therefore modelled as a record of the civil fields that the
layout consumes; the zero value of Go `time.Time` renders as
`"0001-01-01 00:00:00"`.
-/

namespace TimerBot

def isDig (c : Char) : Bool :=
  decide ('0' ≤ c) && decide (c ≤ '9')

/-- Two-digit zero padding, as Go layout components `01`, `02`, `15`, `04`, `05`. -/
def pad2 (n : Nat) : String :=
  if n < 10 then "0" ++ toString n else toString n

/-- Four-digit zero padding, as Go layout component `2006` (year). -/
def pad4 (n : Nat) : String :=
  if n < 10 then "000" ++ toString n
  else if n < 100 then "00" ++ toString n
  else if n < 1000 then "0" ++ toString n
  else toString n

structure GoTime where
  year : Nat
  month : Nat
  day : Nat
  hour : Nat
  minute : Nat
  second : Nat
deriving DecidableEq

/-- The zero value of Go `time.Time`: January 1, year 1, 00:00:00. -/
def zeroTime : GoTime := ⟨1, 1, 1, 0, 0, 0⟩

/-- Go `t.Format("2006-01-02 15:04:05")`. -/
def goFormat (t : GoTime) : String :=
  pad4 t.year ++ "-" ++ pad2 t.month ++ "-" ++ pad2 t.day ++ " " ++
    pad2 t.hour ++ ":" ++ pad2 t.minute ++ ":" ++ pad2 t.second

/-- `type Timer struct` from `src/main.go`.  `duration` is `int64` nanoseconds. -/
structure Timer where
  name : String
  startTime : GoTime
  duration : Int
  stopTime : Option GoTime
deriving DecidableEq

/-- Go `&Timer{}`: all fields at their zero values. -/
def emptyTimer : Timer := ⟨"", zeroTime, 0, none⟩

/-! ### Go `time.ParseDuration`, on `List Char`

The bot parses user input as `time.ParseDuration(input + "m")`.  The model
below follows `go/src/time/format.go` step by step, on `List Char` (the
character-class tests are all ASCII, so byte/char granularity agrees on the
comparisons performed).  The one deviation: for a fractional part Go
computes `uint64(float64(f) * (float64(unit)/scale))` in `float64`; here it
is the exact `(f * unit) / scale` in `Nat`.  The two agree on all small
operands, and no theorem below depends on a fractional input. -/

def nanosecondU : Nat := 1
def microsecondU : Nat := 1000
def millisecondU : Nat := 1000000
def secondU : Nat := 1000000000
def minuteU : Nat := 60000000000
def hourU : Nat := 3600000000000

def unitMap (u : List Char) : Option Nat :=
  if u = ['n', 's'] then some nanosecondU
  else if u = ['u', 's'] then some microsecondU
  else if u = ['µ', 's'] then some microsecondU
  else if u = ['μ', 's'] then some microsecondU
  else if u = ['m', 's'] then some millisecondU
  else if u = ['s'] then some secondU
  else if u = ['m'] then some minuteU
  else if u = ['h'] then some hourU
  else none

/-- Go `leadingInt`: consume `[0-9]*`, with its two overflow checks. -/
def leadingInt : List Char → Nat → Option (Nat × List Char)
  | [], x => some (x, [])
  | c :: rest, x =>
    if isDig c then
      if x > 2 ^ 63 / 10 then none
      else
        let x' := x * 10 + (c.toNat - '0'.toNat)
        if x' > 2 ^ 63 then none
        else leadingInt rest x'
    else some (x, c :: rest)

/-- Go `leadingFraction`: consume `[0-9]*` after the dot, tracking the scale
and silently dropping digits once the accumulator would overflow. -/
def leadingFraction : List Char → Nat → Nat → Bool → Nat × Nat × List Char
  | [], x, scale, _ => (x, scale, [])
  | c :: rest, x, scale, overflow =>
    if isDig c then
      if overflow then leadingFraction rest x scale true
      else if x > (2 ^ 63 - 1) / 10 then leadingFraction rest x scale true
      else
        let y := x * 10 + (c.toNat - '0'.toNat)
        if y > 2 ^ 63 then leadingFraction rest x scale true
        else leadingFraction rest y (scale * 10) false
    else (x, scale, c :: rest)

/-- Consume the unit: the maximal run of characters that are neither a digit
nor a dot (the loop `for ; i < len(s); i++` in `ParseDuration`). -/
def takeUnit : List Char → List Char × List Char
  | [] => ([], [])
  | c :: rest =>
    if c = '.' || isDig c then ([], c :: rest)
    else
      let p := takeUnit rest
      (c :: p.1, p.2)

/-- Main loop of `ParseDuration` (`for s != "" { ... }`), fuelled: every
iteration consumes at least one character, so fuel `length + 1` is enough. -/
def parseLoop : Nat → List Char → Nat → Option Nat
  | 0, _, _ => none
  | fuel + 1, s, d =>
    match s with
    | [] => some d
    | c :: _ =>
      if ¬(c = '.' ∨ isDig c) then none
      else
        match leadingInt s 0 with
        | none => none
        | some (v, s1) =>
          let pre : Bool := decide (s1.length ≠ s.length)
          let fr :=
            match s1 with
            | '.' :: s1t =>
              let q := leadingFraction s1t 0 1 false
              (q.1, q.2.1, q.2.2, decide (q.2.2.length ≠ s1t.length))
            | _ => (0, 1, s1, false)
          if pre = false ∧ fr.2.2.2 = false then none
          else
            let u := takeUnit fr.2.2.1
            if u.1 = [] then none
            else
              match unitMap u.1 with
              | none => none
              | some unit =>
                if v > 2 ^ 63 / unit then none
                else
                  let v1 := v * unit
                  let f := fr.1
                  let scale := fr.2.1
                  let v2 := if f > 0 then v1 + f * unit / scale else v1
                  if f > 0 ∧ v2 > 2 ^ 63 then none
                  else
                    let d' := d + v2
                    if d' > 2 ^ 63 then none
                    else parseLoop fuel u.2 d'

/-- Go `time.ParseDuration`, returning nanoseconds; `none` is a parse error. -/
def parseDuration (s : List Char) : Option Int :=
  let sg :=
    match s with
    | '-' :: rest => (true, rest)
    | '+' :: rest => (false, rest)
    | _ => (false, s)
  let neg := sg.1
  let s1 := sg.2
  if s1 = ['0'] then some 0
  else if s1 = [] then none
  else
    match parseLoop (s1.length + 1) s1 0 with
    | none => none
    | some d =>
      if neg then some (-(d : Int))
      else if d > 2 ^ 63 - 1 then none
      else some (d : Int)

/-! ### The session store `activeTimers : map[int64]*Timer`

Modelled as an association list with Go map semantics: assignment replaces
the entry for an existing key, lookup finds the unique entry, `delete`
removes it.  Key uniqueness (`wfKeys`) is the Go map invariant; every
operation of the program preserves it (claim C8). -/

def mapGet : List (Int × Timer) → Int → Option Timer
  | [], _ => none
  | (k, v) :: rest, c => if k = c then some v else mapGet rest c

def mapPut : List (Int × Timer) → Int → Timer → List (Int × Timer)
  | [], c, t => [(c, t)]
  | (k, v) :: rest, c, t => if k = c then (c, t) :: rest else (k, v) :: mapPut rest c t

def mapDel : List (Int × Timer) → Int → List (Int × Timer)
  | [], _ => []
  | (k, v) :: rest, c => if k = c then rest else (k, v) :: mapDel rest c

def wfKeys (m : List (Int × Timer)) : Prop :=
  (m.map Prod.fst).Nodup

instance (m : List (Int × Timer)) : Decidable (wfKeys m) :=
  inferInstanceAs (Decidable ((m.map Prod.fst).Nodup))

/-- Number of entries stored under one key. -/
def keyCount (m : List (Int × Timer)) (c : Int) : Nat :=
  (m.filter (fun p => p.1 = c)).length

/-- Outcome of the two file operations in `logTimer` (`os.OpenFile` and
`file.WriteString`); threading it makes log I/O failure explicit. -/
structure FsEnv where
  openOk : Bool
  writeOk : Bool
deriving DecidableEq

def fsOk : FsEnv := ⟨true, true⟩
def fsOpenFail : FsEnv := ⟨false, true⟩
def fsWriteFail : FsEnv := ⟨true, false⟩

/-- Observable program state: the session store, the contents of
`timers.log` (one element per appended entry), the operational diagnostic
channel (`log.Println`), the messages handed to `bot.Send`, and the
auto-expiry goroutines spawned so far as `(chatID, duration)` pairs. -/
structure GoState where
  store : List (Int × Timer)
  fileLog : List String
  diag : List String
  sent : List (Int × String)
  spawned : List (Int × Int)
deriving DecidableEq

def initState : GoState := ⟨[], [], [], [], []⟩

/-- The field Go renders for `Окончание`: the stop timestamp, or the
in-progress marker while the timer is still running. -/
def stopField (t : Timer) : String :=
  match t.stopTime with
  | some ts => goFormat ts
  | none => "В процессе"

/-- The log entry built by `logTimer` (`fmt.Sprintf` at line 186). -/
def entryString (t : Timer) (action : String) : String :=
  action ++ " | Название: " ++ t.name ++ " | Начало: " ++ goFormat t.startTime ++
    " | Окончание: " ++ stopField t ++ "\n"

/-- `logTimer`: open `timers.log` in append mode, write one entry, close.
On open failure or write failure the error goes to the diagnostic channel
and the call returns without touching the timer transition. -/
def logTimer (t : Timer) (action : String) (fs : FsEnv) (st : GoState) : GoState :=
  if fs.openOk then
    if fs.writeOk then { st with fileLog := st.fileLog ++ [entryString t action] }
    else { st with diag := st.diag ++ ["Ошибка при сохранении логов:"] }
  else { st with diag := st.diag ++ ["Ошибка записи в лог:"] }

/-- Go renders the duration as `duration.Minutes()` (a float) via `%v`; the
numeric rendering is opaque to every claim, so the model prints the raw
nanosecond count.  Only identity and distinctness of messages matter. -/
def confirmPrompt (name : String) (d : Int) : String :=
  "Запустить таймер \"" ++ name ++ "\" на " ++ toString d ++ " минут?"

def startedMsg (name : String) (d : Int) : String :=
  "Таймер \"" ++ name ++ "\" запущен на " ++ toString d ++ " минут."

def stoppedMsg (name : String) (auto : Bool) : String :=
  "Таймер \"" ++ name ++ "\" остановлен." ++ if auto then " ⏳ Время истекло!" else ""

/-- `handleCallback` case `"start_timer"`: prompt for a name and store a
fresh empty `Timer` (overwriting any existing entry for the chat). -/
def beginSetup (c : Int) (st : GoState) : GoState :=
  { st with sent := st.sent ++ [(c, "Введите название таймера:")],
            store := mapPut st.store c emptyTimer }

/-- `handleTimerSetup`: set the name on first input, otherwise parse
`input + "m"` as a duration.  The Go code reads `activeTimers[chatID]`
unconditionally; its only caller guards on existence, so absence is
modelled as a no-op (Go would dereference nil). -/
def handleTimerSetup (c : Int) (input : String) (st : GoState) : GoState :=
  match mapGet st.store c with
  | none => st
  | some t =>
    if t.name = "" then
      { st with store := mapPut st.store c { t with name := input },
                sent := st.sent ++ [(c, "Введите время в минутах:")] }
    else
      match parseDuration (input.data ++ ['m']) with
      | none => { st with sent := st.sent ++ [(c, "Введите корректное время в минутах.")] }
      | some d =>
        { st with store := mapPut st.store c { t with duration := d },
                  sent := st.sent ++ [(c, confirmPrompt t.name d)] }

/-- `sendLogs`: whole-file read; a read error or empty file shows the empty
sentinel (the model folds the error case into emptiness). -/
def sendLogs (c : Int) (st : GoState) : GoState :=
  let data := String.join st.fileLog
  if data = "" then { st with sent := st.sent ++ [(c, "🔍 Логи пусты.")] }
  else { st with sent := st.sent ++ [(c, "📜 Логи таймеров:\n\n" ++ data)] }

/-- `handleMessage`: commands, then the free-text route, which reaches
`handleTimerSetup` only when an entry exists with `Duration == 0`. -/
def handleMessage (c : Int) (text : String) (st : GoState) : GoState :=
  if text = "/start" then { st with sent := st.sent ++ [(c, "Выберите действие:")] }
  else if text = "/logs" then sendLogs c st
  else
    match mapGet st.store c with
    | some t =>
      if t.duration = 0 then handleTimerSetup c text st
      else { st with sent := st.sent ++ [(c, "Используй кнопки для работы с таймерами.")] }
    | none => { st with sent := st.sent ++ [(c, "Используй кнопки для работы с таймерами.")] }

/-- `startTimer`: guard `!exists || timer.Name == "" || timer.Duration == 0`;
on success set `StartTime = now`, log a start entry, report, and spawn the
auto-expiry goroutine for `(chatID, duration)`. -/
def startTimer (c : Int) (now : GoTime) (fs : FsEnv) (st : GoState) : GoState :=
  match mapGet st.store c with
  | none => { st with sent := st.sent ++ [(c, "Ошибка! Сначала настройте таймер.")] }
  | some t =>
    if t.name = "" ∨ t.duration = 0 then
      { st with sent := st.sent ++ [(c, "Ошибка! Сначала настройте таймер.")] }
    else
      let t' := { t with startTime := now }
      let st1 := { st with store := mapPut st.store c t' }
      let st2 := logTimer t' "Запуск" fs st1
      { st2 with sent := st2.sent ++ [(c, startedMsg t.name t.duration)],
                 spawned := st2.spawned ++ [(c, t.duration)] }

/-- `stopTimer`: under the mutex, check existence; if absent report and
return; otherwise set `StopTime = now`, log a stop entry, delete the map
entry, then report (with the expiry marker when automatic).  The whole
check-to-delete sequence happens under one lock hold, so it is one atomic
step of the model. -/
def stopTimer (c : Int) (auto : Bool) (now : GoTime) (fs : FsEnv) (st : GoState) : GoState :=
  match mapGet st.store c with
  | none => { st with sent := st.sent ++ [(c, "Нет активного таймера.")] }
  | some t =>
    let t' := { t with stopTime := some now }
    let st1 := logTimer t' "Остановлен" fs st
    let st2 := { st1 with store := mapDel st1.store c }
    { st2 with sent := st2.sent ++ [(c, stoppedMsg t.name auto)] }

/-- Body of the goroutine spawned by `startTimer` after its sleep ends:
take the lock, check mere existence of an entry for the chat id, and if one
is present call `stopTimer(chatID, true)` (which re-checks under its own
lock hold). -/
def expiryWake (c : Int) (now : GoTime) (fs : FsEnv) (st : GoState) : GoState :=
  if (mapGet st.store c).isSome then stopTimer c true now fs st else st

/-- `handleCallback` dispatch on the callback data. -/
def handleCallback (c : Int) (data : String) (now : GoTime) (fs : FsEnv)
    (st : GoState) : GoState :=
  if data = "start_timer" then beginSetup c st
  else if data = "show_logs" then sendLogs c st
  else if data = "confirm_timer" then startTimer c now fs st
  else if data = "stop_timer" then stopTimer c false now fs st
  else st

/-! ### Spec-side predicate and shape predicates -/

/-- Modelled from the spec claim wording only (deliberately not from the
source, for comparison with `parseDuration`): the input is a positive
integer count of minutes — a nonempty all-digit numeral with positive
value. -/
def specPosIntNumeral (s : String) : Bool :=
  decide (s.data ≠ []) && s.data.all isDig && s.data.any (fun c => decide (c ≠ '0'))

/-- The shape `YYYY-MM-DD HH:MM:SS`: four digits, dash, two digits, dash,
two digits, space, two digits, colon, two digits, colon, two digits. -/
def shapedTime (s : String) : Prop :=
  ∃ y mo d h mi se : List Char,
    s.data = y ++ ['-'] ++ mo ++ ['-'] ++ d ++ [' '] ++ h ++ [':'] ++ mi ++ [':'] ++ se ∧
    y.length = 4 ∧ mo.length = 2 ∧ d.length = 2 ∧ h.length = 2 ∧ mi.length = 2 ∧
    se.length = 2 ∧ (y ++ mo ++ d ++ h ++ mi ++ se).all isDig = true

/-! ### Concrete data for witnesses and counterexamples -/

def tN1 : GoTime := ⟨2024, 3, 1, 10, 0, 0⟩
def tN2 : GoTime := ⟨2024, 3, 1, 10, 1, 0⟩
def tN3 : GoTime := ⟨2024, 3, 1, 10, 2, 0⟩
def tN4 : GoTime := ⟨2024, 3, 1, 10, 5, 0⟩

/-- A timer armed with name `"Brew"` and two minutes. -/
def brewTimer : Timer := ⟨"Brew", zeroTime, 120000000000, none⟩

/-- The same timer RUNNING since `tN1`. -/
def runTimer : Timer := ⟨"Brew", tN1, 120000000000, none⟩

/-- A configured timer with duration −1 minute (reachable: text input
`"-1"` parses through `ParseDuration("-1m")`). -/
def negTimer : Timer := ⟨"x", zeroTime, -60000000000, none⟩

/-- A timer still in SIZING: name set, duration zero. -/
def sizingTimer : Timer := ⟨"x", zeroTime, 0, none⟩

def brewState : GoState := ⟨[(1, brewTimer)], [], [], [], []⟩
def runState : GoState := ⟨[(1, runTimer)], [], [], [], [(1, 120000000000)]⟩
def negState : GoState := ⟨[(1, negTimer)], [], [], [], []⟩
def sizingState : GoState := ⟨[(1, sizingTimer)], [], [], [], []⟩

/-- Scenario for C4: set up and start timer "A" (5 minutes) at 10:00, stop
it manually at 10:01, set up and start timer "B" (7 minutes) at 10:02; at
10:05 the auto-expiry goroutine spawned for "A" wakes — "B", started
later, still has four minutes left, but the wake only checks that the chat
has some entry. -/
def c4Trace : GoState :=
  expiryWake 1 tN4 fsOk
    (startTimer 1 tN3 fsOk
      (handleMessage 1 "7"
        (handleMessage 1 "B"
          (beginSetup 1
            (stopTimer 1 false tN2 fsOk
              (startTimer 1 tN1 fsOk
                (handleMessage 1 "5"
                  (handleMessage 1 "A"
                    (beginSetup 1 initState)))))))))

/-- The timer "B" as it stands at the moment the stale wake fires. -/
def bTimer : Timer := ⟨"B", tN3, 420000000000, none⟩

/-! ### Helper lemmas: the store operations -/

theorem mapGet_mapPut_self (m : List (Int × Timer)) (c : Int) (t : Timer) :
    mapGet (mapPut m c t) c = some t := by
  induction m with
  | nil => simp [mapPut, mapGet]
  | cons p rest ih =>
    by_cases h : p.1 = c
    · simp [mapPut, h, mapGet]
    · simp [mapPut, h, mapGet, ih]

theorem mapPut_mapPut_self (m : List (Int × Timer)) (c : Int) (t t' : Timer) :
    mapPut (mapPut m c t) c t' = mapPut m c t' := by
  induction m with
  | nil => simp [mapPut]
  | cons p rest ih =>
    by_cases h : p.1 = c
    · simp [mapPut, h]
    · simp [mapPut, h, ih]

theorem mapDel_sublist (m : List (Int × Timer)) (c : Int) :
    (mapDel m c).Sublist m := by
  induction m with
  | nil => simp [mapDel]
  | cons p rest ih =>
    by_cases h : p.1 = c
    · simp [mapDel, h]
    · simp only [mapDel, h, if_false, ite_false]
      exact ih.cons₂ p

theorem mapGet_eq_none_of_not_mem (m : List (Int × Timer)) (c : Int)
    (h : c ∉ m.map Prod.fst) : mapGet m c = none := by
  induction m with
  | nil => rfl
  | cons p rest ih =>
    rw [List.map_cons, List.mem_cons, not_or] at h
    simp [mapGet, Ne.symm h.1, ih h.2]

theorem mapGet_mapDel_self (m : List (Int × Timer)) (c : Int) (hwf : wfKeys m) :
    mapGet (mapDel m c) c = none := by
  induction m with
  | nil => rfl
  | cons p rest ih =>
    rw [wfKeys, List.map_cons, List.nodup_cons] at hwf
    by_cases h : p.1 = c
    · simp only [mapDel, h, if_true, ite_true]
      exact mapGet_eq_none_of_not_mem rest c (h ▸ hwf.1)
    · simp [mapDel, h, mapGet, ih hwf.2]

theorem mem_keys_mapPut (m : List (Int × Timer)) (c a : Int) (t : Timer)
    (h : a ∈ (mapPut m c t).map Prod.fst) : a ∈ m.map Prod.fst ∨ a = c := by
  induction m with
  | nil =>
    rw [mapPut, List.map_cons, List.map_nil, List.mem_singleton] at h
    exact Or.inr h
  | cons p rest ih =>
    obtain ⟨k, v⟩ := p
    by_cases hc : k = c
    · rw [mapPut, if_pos hc, List.map_cons, List.mem_cons] at h
      rcases h with h | h
      · exact Or.inr h
      · exact Or.inl (by rw [List.map_cons, List.mem_cons]; exact Or.inr h)
    · rw [mapPut, if_neg hc, List.map_cons, List.mem_cons] at h
      rcases h with h | h
      · exact Or.inl (by rw [List.map_cons, List.mem_cons]; exact Or.inl h)
      · rcases ih h with h1 | h1
        · exact Or.inl (by rw [List.map_cons, List.mem_cons]; exact Or.inr h1)
        · exact Or.inr h1

theorem wfKeys_mapPut (m : List (Int × Timer)) (c : Int) (t : Timer)
    (hwf : wfKeys m) : wfKeys (mapPut m c t) := by
  induction m with
  | nil => simp [mapPut, wfKeys]
  | cons p rest ih =>
    rw [wfKeys, List.map_cons, List.nodup_cons] at hwf
    obtain ⟨k, v⟩ := p
    by_cases hc : k = c
    · rw [wfKeys, mapPut, if_pos hc, List.map_cons, List.nodup_cons]
      exact ⟨hc ▸ hwf.1, hwf.2⟩
    · rw [wfKeys, mapPut, if_neg hc, List.map_cons, List.nodup_cons]
      refine ⟨fun hmem => ?_, ih hwf.2⟩
      rcases mem_keys_mapPut rest c k t hmem with h1 | h1
      · exact hwf.1 h1
      · exact hc h1

theorem wfKeys_mapDel (m : List (Int × Timer)) (c : Int) (hwf : wfKeys m) :
    wfKeys (mapDel m c) :=
  List.Nodup.sublist (List.Sublist.map Prod.fst (mapDel_sublist m c)) hwf

theorem keyCount_eq_zero_of_not_mem (m : List (Int × Timer)) (c : Int)
    (h : c ∉ m.map Prod.fst) : keyCount m c = 0 := by
  induction m with
  | nil => rfl
  | cons p rest ih =>
    obtain ⟨k, v⟩ := p
    rw [List.map_cons, List.mem_cons, not_or] at h
    have hk : ¬(k = c) := fun hh => h.1 hh.symm
    rw [keyCount, List.filter_cons]
    simp only [hk, decide_False]
    exact ih h.2

theorem keyCount_mapPut_self (m : List (Int × Timer)) (c : Int) (t : Timer)
    (hwf : wfKeys m) : keyCount (mapPut m c t) c = 1 := by
  induction m with
  | nil => simp [mapPut, keyCount]
  | cons p rest ih =>
    rw [wfKeys, List.map_cons, List.nodup_cons] at hwf
    obtain ⟨k, v⟩ := p
    by_cases hc : k = c
    · rw [mapPut, if_pos hc, keyCount, List.filter_cons]
      simp only [decide_True, if_true]
      have h0 := keyCount_eq_zero_of_not_mem rest c (hc ▸ hwf.1)
      rw [keyCount] at h0
      simp [h0]
    · rw [mapPut, if_neg hc, keyCount, List.filter_cons]
      simp only [hc, decide_False]
      have := ih hwf.2
      rw [keyCount] at this
      exact this

/-! ### Helper lemmas: the transitions -/

theorem logTimer_fsOk (t : Timer) (a : String) (st : GoState) :
    logTimer t a fsOk st = { st with fileLog := st.fileLog ++ [entryString t a] } := rfl

theorem logTimer_store (t : Timer) (a : String) (fs : FsEnv) (st : GoState) :
    (logTimer t a fs st).store = st.store := by
  cases fs with
  | mk o w => cases o <;> cases w <;> rfl

theorem logTimer_sent (t : Timer) (a : String) (fs : FsEnv) (st : GoState) :
    (logTimer t a fs st).sent = st.sent := by
  cases fs with
  | mk o w => cases o <;> cases w <;> rfl

theorem logTimer_spawned (t : Timer) (a : String) (fs : FsEnv) (st : GoState) :
    (logTimer t a fs st).spawned = st.spawned := by
  cases fs with
  | mk o w => cases o <;> cases w <;> rfl

theorem logTimer_fail (t : Timer) (a : String) (fs : FsEnv) (st : GoState)
    (hfs : fs.openOk = false ∨ fs.writeOk = false) :
    (logTimer t a fs st).fileLog = st.fileLog ∧
    (logTimer t a fs st).diag.length = st.diag.length + 1 ∧
    (logTimer t a fs st).store = st.store ∧
    (logTimer t a fs st).sent = st.sent ∧
    (logTimer t a fs st).spawned = st.spawned := by
  cases fs with
  | mk o w => cases o <;> cases w <;> simp_all [logTimer]

theorem startTimer_absent (s : GoState) (c : Int) (now : GoTime) (fs : FsEnv)
    (h : mapGet s.store c = none) :
    startTimer c now fs s =
      { s with sent := s.sent ++ [(c, "Ошибка! Сначала настройте таймер.")] } := by
  simp only [startTimer, h]

theorem startTimer_blocked (s : GoState) (c : Int) (now : GoTime) (fs : FsEnv)
    (t : Timer) (h : mapGet s.store c = some t) (hg : t.name = "" ∨ t.duration = 0) :
    startTimer c now fs s =
      { s with sent := s.sent ++ [(c, "Ошибка! Сначала настройте таймер.")] } := by
  simp only [startTimer, h]
  rw [if_pos hg]

theorem startTimer_ok_fsOk (s : GoState) (c : Int) (now : GoTime) (t : Timer)
    (h : mapGet s.store c = some t) (hn : t.name ≠ "") (hd : t.duration ≠ 0) :
    startTimer c now fsOk s =
      { s with store := mapPut s.store c { t with startTime := now },
               fileLog := s.fileLog ++ [entryString { t with startTime := now } "Запуск"],
               sent := s.sent ++ [(c, startedMsg t.name t.duration)],
               spawned := s.spawned ++ [(c, t.duration)] } := by
  simp only [startTimer, h]
  rw [if_neg (by simp [hn, hd])]
  rfl

theorem startTimer_ok_fail (s : GoState) (c : Int) (now : GoTime) (fs : FsEnv)
    (t : Timer) (h : mapGet s.store c = some t) (hn : t.name ≠ "") (hd : t.duration ≠ 0)
    (hfs : fs.openOk = false ∨ fs.writeOk = false) :
    (startTimer c now fs s).store = mapPut s.store c { t with startTime := now } ∧
    (startTimer c now fs s).fileLog = s.fileLog ∧
    (startTimer c now fs s).diag.length = s.diag.length + 1 ∧
    (startTimer c now fs s).sent = s.sent ++ [(c, startedMsg t.name t.duration)] ∧
    (startTimer c now fs s).spawned = s.spawned ++ [(c, t.duration)] := by
  have hlog := logTimer_fail { t with startTime := now } "Запуск" fs
    { s with store := mapPut s.store c { t with startTime := now } } hfs
  simp only [startTimer, h]
  rw [if_neg (by simp [hn, hd])]
  refine ⟨?_, ?_, ?_, ?_, ?_⟩
  · simpa using (logTimer_store { t with startTime := now } "Запуск" fs
      { s with store := mapPut s.store c { t with startTime := now } })
  · simpa using hlog.1
  · simpa using hlog.2.1
  · simpa using congrArg (fun l => l ++ [(c, startedMsg t.name t.duration)])
      (logTimer_sent { t with startTime := now } "Запуск" fs
        { s with store := mapPut s.store c { t with startTime := now } })
  · simpa using congrArg (fun l => l ++ [(c, t.duration)])
      (logTimer_spawned { t with startTime := now } "Запуск" fs
        { s with store := mapPut s.store c { t with startTime := now } })

theorem stopTimer_absent (s : GoState) (c : Int) (auto : Bool) (now : GoTime)
    (fs : FsEnv) (h : mapGet s.store c = none) :
    stopTimer c auto now fs s =
      { s with sent := s.sent ++ [(c, "Нет активного таймера.")] } := by
  simp only [stopTimer, h]

theorem stopTimer_ok_fsOk (s : GoState) (c : Int) (auto : Bool) (now : GoTime)
    (t : Timer) (h : mapGet s.store c = some t) :
    stopTimer c auto now fsOk s =
      { s with store := mapDel s.store c,
               fileLog := s.fileLog ++ [entryString { t with stopTime := some now } "Остановлен"],
               sent := s.sent ++ [(c, stoppedMsg t.name auto)] } := by
  simp only [stopTimer, h]
  rfl

theorem stopTimer_ok_fail (s : GoState) (c : Int) (auto : Bool) (now : GoTime)
    (fs : FsEnv) (t : Timer) (h : mapGet s.store c = some t)
    (hfs : fs.openOk = false ∨ fs.writeOk = false) :
    (stopTimer c auto now fs s).store = mapDel s.store c ∧
    (stopTimer c auto now fs s).fileLog = s.fileLog ∧
    (stopTimer c auto now fs s).diag.length = s.diag.length + 1 ∧
    (stopTimer c auto now fs s).sent = s.sent ++ [(c, stoppedMsg t.name auto)] := by
  have hlog := logTimer_fail { t with stopTime := some now } "Остановлен" fs s hfs
  simp only [stopTimer, h]
  refine ⟨?_, ?_, ?_, ?_⟩
  · simpa using congrArg (fun m => mapDel m c)
      (logTimer_store { t with stopTime := some now } "Остановлен" fs s)
  · simpa using hlog.1
  · simpa using hlog.2.1
  · simpa using congrArg (fun l => l ++ [(c, stoppedMsg t.name auto)])
      (logTimer_sent { t with stopTime := some now } "Остановлен" fs s)

theorem expiryWake_absent (s : GoState) (c : Int) (now : GoTime) (fs : FsEnv)
    (h : mapGet s.store c = none) : expiryWake c now fs s = s := by
  simp [expiryWake, h]

theorem expiryWake_present (s : GoState) (c : Int) (now : GoTime) (fs : FsEnv)
    (t : Timer) (h : mapGet s.store c = some t) :
    expiryWake c now fs s = stopTimer c true now fs s := by
  simp [expiryWake, h]

theorem setup_parse_fail (s : GoState) (c : Int) (input : String) (t : Timer)
    (h : mapGet s.store c = some t) (hn : t.name ≠ "")
    (hp : parseDuration (input.data ++ ['m']) = none) :
    handleTimerSetup c input s =
      { s with sent := s.sent ++ [(c, "Введите корректное время в минутах.")] } := by
  simp only [handleTimerSetup, h]
  rw [if_neg hn]
  simp only [hp]

theorem setup_parse_ok (s : GoState) (c : Int) (input : String) (t : Timer) (d : Int)
    (h : mapGet s.store c = some t) (hn : t.name ≠ "")
    (hp : parseDuration (input.data ++ ['m']) = some d) :
    handleTimerSetup c input s =
      { s with store := mapPut s.store c { t with duration := d },
               sent := s.sent ++ [(c, confirmPrompt t.name d)] } := by
  simp only [handleTimerSetup, h]
  rw [if_neg hn]
  simp only [hp]

/-! ### Helper lemmas: decimal rendering and the timestamp shape -/

theorem isDig_digitChar : ∀ m < 10, isDig (Nat.digitChar m) = true := by decide

theorem toDigitsCore_all_dig (f : Nat) : ∀ (n : Nat) (l : List Char),
    l.all isDig = true → (Nat.toDigitsCore 10 f n l).all isDig = true := by
  induction f with
  | zero => intro n l h; exact h
  | succ f ih =>
    intro n l h
    rw [Nat.toDigitsCore]
    have hd : isDig (Nat.digitChar (n % 10)) = true :=
      isDig_digitChar (n % 10) (Nat.mod_lt n (by norm_num))
    by_cases h10 : n / 10 = 0
    · simp only [h10, if_true, ite_true, List.all_cons, hd, Bool.true_and]
      exact h
    · simp only [h10, if_false, ite_false]
      exact ih (n / 10) _ (by simp [List.all_cons, hd, h])

theorem toDigitsCore_length_eq (f : Nat) : ∀ (n : Nat) (l : List Char), n ≠ 0 → n < 10 ^ f →
    (Nat.toDigitsCore 10 f n l).length = (Nat.digits 10 n).length + l.length := by
  induction f with
  | zero => intro n l hn hf; simp at hf; omega
  | succ f ih =>
    intro n l hn hf
    rw [Nat.toDigitsCore]
    by_cases h10 : n / 10 = 0
    · have hlt : n < 10 := (Nat.div_eq_zero_iff (by norm_num)).mp h10
      simp only [h10, if_true, ite_true, List.length_cons]
      rw [Nat.digits_def' (by norm_num : (1:Nat) < 10) (Nat.pos_of_ne_zero hn), h10]
      simp
      omega
    · have hne : n / 10 ≠ 0 := h10
      have hlt : n / 10 < 10 ^ f := by
        rw [Nat.div_lt_iff_lt_mul (by norm_num : (0:Nat) < 10)]
        calc n < 10 ^ (f + 1) := hf
        _ = 10 ^ f * 10 := by ring
      simp only [h10, if_false, ite_false]
      rw [ih (n / 10) _ hne hlt]
      rw [Nat.digits_def' (by norm_num : (1:Nat) < 10) (Nat.pos_of_ne_zero hn)]
      simp [List.length_cons]
      omega

theorem repr_data_all_dig (n : Nat) : (Nat.repr n).data.all isDig = true := by
  rw [Nat.repr, Nat.toDigits]
  have : (List.asString (Nat.toDigitsCore 10 (n + 1) n [])).data
      = Nat.toDigitsCore 10 (n + 1) n [] := rfl
  rw [this]
  exact toDigitsCore_all_dig (n + 1) n [] rfl

theorem repr_length_eq (n : Nat) (hn : n ≠ 0) :
    (Nat.repr n).data.length = Nat.log 10 n + 1 := by
  rw [Nat.repr, Nat.toDigits]
  have hd : (List.asString (Nat.toDigitsCore 10 (n + 1) n [])).data
      = Nat.toDigitsCore 10 (n + 1) n [] := rfl
  rw [hd]
  have hpow : n < 10 ^ (n + 1) := by
    calc n < 10 ^ n := Nat.lt_pow_self (by norm_num) n
    _ ≤ 10 ^ (n + 1) := Nat.pow_le_pow_right (by norm_num) (Nat.le_succ n)
  rw [toDigitsCore_length_eq (n + 1) n [] hn hpow]
  rw [Nat.digits_len 10 n (by norm_num) hn]
  simp

theorem toString_nat_data (n : Nat) : (toString n).data = (Nat.repr n).data := rfl

theorem pad4_shape (n : Nat) (h : n < 10000) :
    (pad4 n).data.length = 4 ∧ (pad4 n).data.all isDig = true := by
  by_cases h0 : n = 0
  · subst h0; exact ⟨rfl, rfl⟩
  rw [pad4]
  by_cases h1 : n < 10
  · rw [if_pos h1]
    have hlen := repr_length_eq n h0
    have hlog : Nat.log 10 n = 0 := Nat.log_eq_of_pow_le_of_lt_pow (by simpa using Nat.pos_of_ne_zero h0) (by simpa using h1)
    constructor
    · show ("000".data ++ (toString n).data).length = 4
      rw [toString_nat_data, List.length_append, hlen, hlog]
      decide
    · show ("000".data ++ (toString n).data).all isDig = true
      rw [toString_nat_data, List.all_append, repr_data_all_dig n]
      decide
  · rw [if_neg h1]
    by_cases h2 : n < 100
    · rw [if_pos h2]
      have hlen := repr_length_eq n h0
      have hlog : Nat.log 10 n = 1 := Nat.log_eq_of_pow_le_of_lt_pow (by simpa using Nat.not_lt.mp h1) (by simpa using h2)
      constructor
      · show ("00".data ++ (toString n).data).length = 4
        rw [toString_nat_data, List.length_append, hlen, hlog]
        decide
      · show ("00".data ++ (toString n).data).all isDig = true
        rw [toString_nat_data, List.all_append, repr_data_all_dig n]
        decide
    · rw [if_neg h2]
      by_cases h3 : n < 1000
      · rw [if_pos h3]
        have hlen := repr_length_eq n h0
        have hlog : Nat.log 10 n = 2 := Nat.log_eq_of_pow_le_of_lt_pow (by simpa using Nat.not_lt.mp h2) (by simpa using h3)
        constructor
        · show ("0".data ++ (toString n).data).length = 4
          rw [toString_nat_data, List.length_append, hlen, hlog]
          decide
        · show ("0".data ++ (toString n).data).all isDig = true
          rw [toString_nat_data, List.all_append, repr_data_all_dig n]
          decide
      · rw [if_neg h3]
        have hlen := repr_length_eq n h0
        have hlog : Nat.log 10 n = 3 := Nat.log_eq_of_pow_le_of_lt_pow (by simpa using Nat.not_lt.mp h3) (by simpa using h)
        constructor
        · show (toString n).data.length = 4
          rw [toString_nat_data, hlen, hlog]
        · show (toString n).data.all isDig = true
          rw [toString_nat_data]
          exact repr_data_all_dig n

theorem pad2_shape (n : Nat) (h : n < 100) :
    (pad2 n).data.length = 2 ∧ (pad2 n).data.all isDig = true := by
  by_cases h0 : n = 0
  · subst h0; exact ⟨rfl, rfl⟩
  rw [pad2]
  by_cases h1 : n < 10
  · rw [if_pos h1]
    have hlen := repr_length_eq n h0
    have hlog : Nat.log 10 n = 0 := Nat.log_eq_of_pow_le_of_lt_pow (by simpa using Nat.pos_of_ne_zero h0) (by simpa using h1)
    constructor
    · show ("0".data ++ (toString n).data).length = 2
      rw [toString_nat_data, List.length_append, hlen, hlog]
      decide
    · show ("0".data ++ (toString n).data).all isDig = true
      rw [toString_nat_data, List.all_append, repr_data_all_dig n]
      decide
  · rw [if_neg h1]
    have hlen := repr_length_eq n h0
    have hlog : Nat.log 10 n = 1 := Nat.log_eq_of_pow_le_of_lt_pow (by simpa using Nat.not_lt.mp h1) (by simpa using h)
    constructor
    · show (toString n).data.length = 2
      rw [toString_nat_data, hlen, hlog]
    · show (toString n).data.all isDig = true
      rw [toString_nat_data]
      exact repr_data_all_dig n

theorem goFormat_shaped (t : GoTime) (hy : t.year < 10000) (hmo : t.month < 100)
    (hd : t.day < 100) (hh : t.hour < 100) (hmi : t.minute < 100) (hs : t.second < 100) :
    shapedTime (goFormat t) := by
  obtain ⟨hy1, hy2⟩ := pad4_shape t.year hy
  obtain ⟨hmo1, hmo2⟩ := pad2_shape t.month hmo
  obtain ⟨hd1, hd2⟩ := pad2_shape t.day hd
  obtain ⟨hh1, hh2⟩ := pad2_shape t.hour hh
  obtain ⟨hmi1, hmi2⟩ := pad2_shape t.minute hmi
  obtain ⟨hs1, hs2⟩ := pad2_shape t.second hs
  refine ⟨(pad4 t.year).data, (pad2 t.month).data, (pad2 t.day).data,
    (pad2 t.hour).data, (pad2 t.minute).data, (pad2 t.second).data, ?_,
    hy1, hmo1, hd1, hh1, hmi1, hs1, ?_⟩
  · show (goFormat t).data = _
    rw [goFormat]
    simp [String.data_append]
  · simp [List.all_append, hy2, hmo2, hd2, hh2, hmi2, hs2]

/-! ### The claims -/

theorem startTimer_store_cases (c : Int) (now : GoTime) (fs : FsEnv) (s : GoState) :
    (startTimer c now fs s).store = s.store ∨
    ∃ t, (startTimer c now fs s).store = mapPut s.store c t := by
  cases h : mapGet s.store c with
  | none => rw [startTimer_absent s c now fs h]; exact Or.inl rfl
  | some t =>
    by_cases hg : t.name = "" ∨ t.duration = 0
    · rw [startTimer_blocked s c now fs t h hg]; exact Or.inl rfl
    · refine Or.inr ⟨{ t with startTime := now }, ?_⟩
      simp only [startTimer, h]
      rw [if_neg hg]
      show (logTimer { t with startTime := now } "Запуск" fs
        { s with store := mapPut s.store c { t with startTime := now } }).store = _
      rw [logTimer_store]

theorem stopTimer_store_cases (c : Int) (auto : Bool) (now : GoTime) (fs : FsEnv)
    (s : GoState) :
    (stopTimer c auto now fs s).store = s.store ∨
    (stopTimer c auto now fs s).store = mapDel s.store c := by
  cases h : mapGet s.store c with
  | none => rw [stopTimer_absent s c auto now fs h]; exact Or.inl rfl
  | some t =>
    refine Or.inr ?_
    simp only [stopTimer, h]
    show mapDel (logTimer { t with stopTime := some now } "Остановлен" fs s).store c = _
    rw [logTimer_store]

theorem sendLogs_store (c : Int) (st : GoState) : (sendLogs c st).store = st.store := by
  rw [sendLogs]
  split <;> rfl

theorem wf_handleTimerSetup (c : Int) (input : String) (st : GoState)
    (hwf : wfKeys st.store) : wfKeys (handleTimerSetup c input st).store := by
  cases h : mapGet st.store c with
  | none => simp only [handleTimerSetup, h]; exact hwf
  | some t =>
    by_cases hn : t.name = ""
    · simp only [handleTimerSetup, h]
      rw [if_pos hn]
      exact wfKeys_mapPut st.store c { t with name := input } hwf
    · cases hp : parseDuration (input.data ++ ['m']) with
      | none => rw [setup_parse_fail st c input t h hn hp]; exact hwf
      | some d =>
        rw [setup_parse_ok st c input t d h hn hp]
        exact wfKeys_mapPut st.store c { t with duration := d } hwf

theorem wf_handleMessage (c : Int) (input : String) (st : GoState)
    (hwf : wfKeys st.store) : wfKeys (handleMessage c input st).store := by
  by_cases h1 : input = "/start"
  · simp only [handleMessage, h1]; exact hwf
  · by_cases h2 : input = "/logs"
    · simp only [handleMessage, h1, h2]
      rw [if_neg (by decide : ¬("/logs" = "/start"))]
      rw [if_pos trivial, sendLogs_store]
      exact hwf
    · cases h : mapGet st.store c with
      | none => simp only [handleMessage, h1, h2, h]; exact hwf
      | some t =>
        by_cases hd : t.duration = 0
        · simp only [handleMessage, h1, h2, h]
          rw [if_pos hd]
          exact wf_handleTimerSetup c input st hwf
        · simp only [handleMessage, h1, h2, h]
          rw [if_neg hd]
          exact hwf

theorem wf_startTimer (c : Int) (now : GoTime) (fs : FsEnv) (s : GoState)
    (hwf : wfKeys s.store) : wfKeys (startTimer c now fs s).store := by
  rcases startTimer_store_cases c now fs s with h | ⟨t, h⟩
  · rw [h]; exact hwf
  · rw [h]; exact wfKeys_mapPut s.store c t hwf

theorem wf_stopTimer (c : Int) (auto : Bool) (now : GoTime) (fs : FsEnv) (s : GoState)
    (hwf : wfKeys s.store) : wfKeys (stopTimer c auto now fs s).store := by
  rcases stopTimer_store_cases c auto now fs s with h | h
  · rw [h]; exact hwf
  · rw [h]; exact wfKeys_mapDel s.store c hwf

theorem wf_expiryWake (c : Int) (now : GoTime) (fs : FsEnv) (s : GoState)
    (hwf : wfKeys s.store) : wfKeys (expiryWake c now fs s).store := by
  cases hh : (mapGet s.store c).isSome with
  | true => simp only [expiryWake, hh, if_true, ite_true]; exact wf_stopTimer c true now fs s hwf
  | false => simp only [expiryWake, hh, Bool.false_eq_true, if_false, ite_false]; exact hwf

/-- C1: for a session holding a RUNNING timer, manual `Stop` and the
automatic expiry race through `stopTimer`, whose existence check, log
append and removal all happen under one mutex hold (one atomic step of the
model).  In each of the three interleavings — manual first then the wake;
the wake's pre-check passing but manual stopping before the wake's own
`stopTimer` call; the expiry first then manual — exactly one of the two
appends the single stop entry and removes the entry, and the loser observes
absence and no-ops without a second log entry or a second completion
report. -/
theorem c1_stop_race (s : GoState) (c : Int) (t : Timer) (now1 now2 : GoTime)
    (hwf : wfKeys s.store) (hget : mapGet s.store c = some t)
    (hrun : t.stopTime = none) :
    (expiryWake c now2 fsOk (stopTimer c false now1 fsOk s) =
       stopTimer c false now1 fsOk s) ∧
    (stopTimer c true now2 fsOk (stopTimer c false now1 fsOk s) =
       { stopTimer c false now1 fsOk s with
           sent := (stopTimer c false now1 fsOk s).sent ++ [(c, "Нет активного таймера.")] }) ∧
    (stopTimer c false now2 fsOk (expiryWake c now1 fsOk s) =
       { expiryWake c now1 fsOk s with
           sent := (expiryWake c now1 fsOk s).sent ++ [(c, "Нет активного таймера.")] }) ∧
    (stopTimer c false now1 fsOk s).fileLog =
      s.fileLog ++ [entryString { t with stopTime := some now1 } "Остановлен"] ∧
    (stopTimer c false now1 fsOk s).sent = s.sent ++ [(c, stoppedMsg t.name false)] ∧
    mapGet (stopTimer c false now1 fsOk s).store c = none ∧
    (expiryWake c now1 fsOk s).fileLog =
      s.fileLog ++ [entryString { t with stopTime := some now1 } "Остановлен"] ∧
    (expiryWake c now1 fsOk s).sent = s.sent ++ [(c, stoppedMsg t.name true)] ∧
    mapGet (expiryWake c now1 fsOk s).store c = none := by
  have hstop := stopTimer_ok_fsOk s c false now1 t hget
  have hstopA := stopTimer_ok_fsOk s c true now1 t hget
  have hwake := expiryWake_present s c now1 fsOk t hget
  have hnone : mapGet (stopTimer c false now1 fsOk s).store c = none := by
    rw [hstop]
    exact mapGet_mapDel_self s.store c hwf
  have hnoneA : mapGet (expiryWake c now1 fsOk s).store c = none := by
    rw [hwake, hstopA]
    exact mapGet_mapDel_self s.store c hwf
  refine ⟨expiryWake_absent _ c now2 fsOk hnone,
    stopTimer_absent _ c true now2 fsOk hnone,
    stopTimer_absent _ c false now2 fsOk hnoneA, ?_, ?_, hnone, ?_, ?_, hnoneA⟩
  · rw [hstop]
  · rw [hstop]
  · rw [hwake, hstopA]
  · rw [hwake, hstopA]

theorem c1_stop_race_witness :
    expiryWake 1 tN3 fsOk (stopTimer 1 false tN2 fsOk runState) =
      stopTimer 1 false tN2 fsOk runState ∧
    mapGet (stopTimer 1 false tN2 fsOk runState).store 1 = none :=
  ⟨(c1_stop_race runState 1 runTimer tN2 tN3 (by decide) rfl rfl).1,
   (c1_stop_race runState 1 runTimer tN2 tN3 (by decide) rfl rfl).2.2.2.2.2.1⟩

/-- C2 as stated is false at a concrete input: the stored timer
`negTimer` has `duration = -1` minute (nonzero but not positive, reachable
via text input "-1"), so the claim's guard `duration > 0` fails and the
claim demands that Confirm fail with no state change and no log entry; the
code instead accepts it, sets `start_time` and appends a start entry. -/
theorem c2_claim_counterexample :
    ¬(negTimer.duration > 0) ∧
    mapGet negState.store 1 = some negTimer ∧
    negTimer.name ≠ "" ∧
    (startTimer 1 tN1 fsOk negState).fileLog.length = negState.fileLog.length + 1 ∧
    mapGet (startTimer 1 tN1 fsOk negState).store 1 =
      some { negTimer with startTime := tN1 } := by
  refine ⟨by decide, rfl, by decide, ?_, ?_⟩
  · rw [startTimer_ok_fsOk negState 1 tN1 negTimer rfl (by decide) (by decide)]
    rfl
  · rw [startTimer_ok_fsOk negState 1 tN1 negTimer rfl (by decide) (by decide)]
    exact mapGet_mapPut_self negState.store 1 { negTimer with startTime := tN1 }

/-- C2 (amended): the Confirm guard is existence AND `name != ""` AND
`duration != 0` — nonzero rather than positive.  On a failing guard only
the error notice is sent and nothing else changes; on success `start_time`
is set to now, exactly one start entry is appended, the success notice is
sent, and the countdown is spawned. -/
theorem c2_confirm_guard (s : GoState) (c : Int) (now : GoTime) :
    (∀ (h : mapGet s.store c = none),
       startTimer c now fsOk s =
         { s with sent := s.sent ++ [(c, "Ошибка! Сначала настройте таймер.")] }) ∧
    (∀ t, mapGet s.store c = some t → (t.name = "" ∨ t.duration = 0) →
       startTimer c now fsOk s =
         { s with sent := s.sent ++ [(c, "Ошибка! Сначала настройте таймер.")] }) ∧
    (∀ t, mapGet s.store c = some t → t.name ≠ "" → t.duration ≠ 0 →
       startTimer c now fsOk s =
         { s with store := mapPut s.store c { t with startTime := now },
                  fileLog := s.fileLog ++ [entryString { t with startTime := now } "Запуск"],
                  sent := s.sent ++ [(c, startedMsg t.name t.duration)],
                  spawned := s.spawned ++ [(c, t.duration)] }) :=
  ⟨fun h => startTimer_absent s c now fsOk h,
   fun t h hg => startTimer_blocked s c now fsOk t h hg,
   fun t h hn hd => startTimer_ok_fsOk s c now t h hn hd⟩

theorem c2_confirm_guard_witness :
    startTimer 1 tN1 fsOk brewState =
      { brewState with
          store := mapPut brewState.store 1 { brewTimer with startTime := tN1 },
          fileLog := brewState.fileLog ++ [entryString { brewTimer with startTime := tN1 } "Запуск"],
          sent := brewState.sent ++ [(1, startedMsg brewTimer.name brewTimer.duration)],
          spawned := brewState.spawned ++ [(1, brewTimer.duration)] } ∧
    stopTimer 2 false tN1 fsOk brewState =
      { brewState with sent := brewState.sent ++ [(2, "Нет активного таймера.")] } :=
  ⟨(c2_confirm_guard brewState 1 tN1).2.2 brewTimer rfl (by decide) (by decide),
   stopTimer_absent brewState 2 false tN1 fsOk rfl⟩

/-- C3 as stated is false at a concrete input: under the claim's parser
("a positive integer count of minutes") the input "-5" fails to parse and
must leave the SIZING session unchanged; the code parses it through Go
duration syntax (`ParseDuration("-5m")`), stores duration −5 minutes, and
the session leaves SIZING. -/
theorem c3_claim_counterexample :
    specPosIntNumeral "-5" = false ∧
    mapGet (handleMessage 1 "-5" sizingState).store 1 =
      some { sizingTimer with duration := -300000000000 } := by
  constructor
  · decide
  · decide

/-- C3 (amended): in SIZING, input is parsed as a Go duration with a
trailing "m" appended (so fractional and negative numerals are also
accepted); "10" yields exactly 10 minutes (600000000000 ns) and arms the
session, while an input the Go parser rejects, such as "abc", leaves the
session in SIZING with the Timer unchanged and sends the reprompt. -/
theorem c3_sizing_input (s : GoState) (c : Int) (input : String) (t : Timer)
    (hget : mapGet s.store c = some t) (hn : t.name ≠ "") (hd : t.duration = 0) :
    (parseDuration (input.data ++ ['m']) = none →
       handleTimerSetup c input s =
         { s with sent := s.sent ++ [(c, "Введите корректное время в минутах.")] }) ∧
    (∀ d, parseDuration (input.data ++ ['m']) = some d →
       handleTimerSetup c input s =
         { s with store := mapPut s.store c { t with duration := d },
                  sent := s.sent ++ [(c, confirmPrompt t.name d)] }) ∧
    parseDuration ("10".data ++ ['m']) = some 600000000000 ∧
    parseDuration ("abc".data ++ ['m']) = none :=
  ⟨fun hp => setup_parse_fail s c input t hget hn hp,
   fun d hp => setup_parse_ok s c input t d hget hn hp,
   by decide, by decide⟩

theorem c3_sizing_input_witness :
    handleTimerSetup 1 "10" sizingState =
      { sizingState with
          store := mapPut sizingState.store 1 { sizingTimer with duration := 600000000000 },
          sent := sizingState.sent ++ [(1, confirmPrompt sizingTimer.name 600000000000)] } ∧
    handleTimerSetup 1 "abc" sizingState =
      { sizingState with
          sent := sizingState.sent ++ [(1, "Введите корректное время в минутах.")] } :=
  ⟨(c3_sizing_input sizingState 1 "10" sizingTimer rfl (by decide) rfl).2.1
      600000000000 (by decide),
   (c3_sizing_input sizingState 1 "abc" sizingTimer rfl (by decide) rfl).1 (by decide)⟩

/-- C4's "never stops a different, later-created Timer of the same session"
is false: in `c4Trace`, two countdowns are pending — timer "A"'s (5 min,
spawned 10:00, due 10:05) and timer "B"'s (7 min, spawned 10:02, due 10:09).
At 10:05 only "A"'s countdown can be the one waking, yet its existence
re-check is keyed by the chat id alone, finds the later-created, still
running timer "B", and stops it: the final log line is an automatic stop
entry for "B" and the chat is told "B" expired four minutes early. -/
theorem c4_claim_counterexample :
    c4Trace.spawned = [(1, 300000000000), (1, 420000000000)] ∧
    mapGet c4Trace.store 1 = none ∧
    c4Trace.fileLog.length = 4 ∧
    c4Trace.fileLog.getLast? =
      some (entryString { bTimer with stopTime := some tN4 } "Остановлен") ∧
    c4Trace.sent.getLast? = some (1, stoppedMsg "B" true) := by
  refine ⟨?_, ?_, ?_, ?_, ?_⟩ <;> decide

/-- C4 (amended): the countdown body re-checks only that the session has
some live entry in the store: if the session is empty it is an exact no-op,
and if any timer is present — whichever timer that now is — it is stopped
as an automatic expiry (entry removed, one stop entry logged, expiry
reported). -/
theorem c4_expiry_existence_only (s : GoState) (c : Int) (now : GoTime) :
    (mapGet s.store c = none → expiryWake c now fsOk s = s) ∧
    (∀ t, mapGet s.store c = some t →
       expiryWake c now fsOk s =
         { s with store := mapDel s.store c,
                  fileLog := s.fileLog ++
                    [entryString { t with stopTime := some now } "Остановлен"],
                  sent := s.sent ++ [(c, stoppedMsg t.name true)] }) :=
  ⟨fun h => expiryWake_absent s c now fsOk h,
   fun t h => (expiryWake_present s c now fsOk t h).trans (stopTimer_ok_fsOk s c true now t h)⟩

theorem c4_expiry_existence_only_witness :
    expiryWake 1 tN2 fsOk runState =
      { runState with
          store := mapDel runState.store 1,
          fileLog := runState.fileLog ++
            [entryString { runTimer with stopTime := some tN2 } "Остановлен"],
          sent := runState.sent ++ [(1, stoppedMsg runTimer.name true)] } ∧
    expiryWake 1 tN2 fsOk initState = initState :=
  ⟨(c4_expiry_existence_only runState 1 tN2).2 runTimer rfl,
   (c4_expiry_existence_only initState 1 tN2).1 rfl⟩

/-- C5: `Stop` on a session with no live Timer only sends the
"Нет активного таймера." notice: the store, the log file, the diagnostic
channel and the spawned countdowns are all left unchanged. -/
theorem c5_stop_without_timer (s : GoState) (c : Int) (auto : Bool) (now : GoTime)
    (fs : FsEnv) (h : mapGet s.store c = none) :
    stopTimer c auto now fs s =
      { s with sent := s.sent ++ [(c, "Нет активного таймера.")] } :=
  stopTimer_absent s c auto now fs h

theorem c5_stop_without_timer_witness :
    stopTimer 2 true tN1 fsOk runState =
      { runState with sent := runState.sent ++ [(2, "Нет активного таймера.")] } :=
  c5_stop_without_timer runState 2 true tN1 fsOk rfl

/-- C6: each append to the log sink adds exactly one entry of the
pipe-delimited form `<action> | Название: <name> | Начало: <start> |
Окончание: <stop or "В процессе">`; the entry is newline-terminated, a
start entry (no stop time yet) carries the in-progress marker, and for
in-range field values the rendered timestamp has the shape
`YYYY-MM-DD HH:MM:SS`.  The model treats each call as one self-contained
append (open in append mode, write, release), so nothing else changes. -/
theorem c6_log_sink_contract (t : Timer) (action : String) (st : GoState)
    (hy : t.startTime.year < 10000) (hmo : t.startTime.month < 100)
    (hd : t.startTime.day < 100) (hh : t.startTime.hour < 100)
    (hmi : t.startTime.minute < 100) (hs : t.startTime.second < 100) :
    logTimer t action fsOk st =
      { st with fileLog := st.fileLog ++ [entryString t action] } ∧
    entryString t action =
      action ++ " | Название: " ++ t.name ++ " | Начало: " ++ goFormat t.startTime ++
        " | Окончание: " ++ stopField t ++ "\n" ∧
    (t.stopTime = none → stopField t = "В процессе") ∧
    (∃ l, (entryString t action).data = l ++ ['\n']) ∧
    shapedTime (goFormat t.startTime) := by
  refine ⟨logTimer_fsOk t action st, rfl, ?_, ?_, goFormat_shaped t.startTime hy hmo hd hh hmi hs⟩
  · intro h
    rw [stopField, h]
  · refine ⟨(action ++ " | Название: " ++ t.name ++ " | Начало: " ++ goFormat t.startTime ++
      " | Окончание: " ++ stopField t).data, ?_⟩
    show ((action ++ " | Название: " ++ t.name ++ " | Начало: " ++ goFormat t.startTime ++
      " | Окончание: " ++ stopField t) ++ "\n").data = _
    rw [String.data_append]

theorem c6_log_sink_contract_witness :
    logTimer runTimer "Запуск" fsOk initState =
      { initState with fileLog := initState.fileLog ++ [entryString runTimer "Запуск"] } ∧
    entryString runTimer "Запуск" =
      "Запуск | Название: Brew | Начало: 2024-03-01 10:00:00 | Окончание: В процессе\n" :=
  ⟨(c6_log_sink_contract runTimer "Запуск" initState (by decide) (by decide) (by decide)
      (by decide) (by decide) (by decide)).1,
   by decide⟩

/-- C7: when opening or writing the log file fails, the error is appended
to the operational diagnostic channel and swallowed: a guarded-success
Confirm still sets `start_time`, reports success and spawns the countdown,
and a Stop with a live entry still removes it and reports completion; in
both cases the log file itself is untouched. -/
theorem c7_log_failure_swallowed (s : GoState) (c : Int) (now : GoTime) (fs : FsEnv)
    (t : Timer) (auto : Bool) (hget : mapGet s.store c = some t)
    (hn : t.name ≠ "") (hd : t.duration ≠ 0)
    (hfs : fs.openOk = false ∨ fs.writeOk = false) :
    ((startTimer c now fs s).store = mapPut s.store c { t with startTime := now } ∧
     (startTimer c now fs s).fileLog = s.fileLog ∧
     (startTimer c now fs s).diag.length = s.diag.length + 1 ∧
     (startTimer c now fs s).sent = s.sent ++ [(c, startedMsg t.name t.duration)] ∧
     (startTimer c now fs s).spawned = s.spawned ++ [(c, t.duration)]) ∧
    ((stopTimer c auto now fs s).store = mapDel s.store c ∧
     (stopTimer c auto now fs s).fileLog = s.fileLog ∧
     (stopTimer c auto now fs s).diag.length = s.diag.length + 1 ∧
     (stopTimer c auto now fs s).sent = s.sent ++ [(c, stoppedMsg t.name auto)]) :=
  ⟨startTimer_ok_fail s c now fs t hget hn hd hfs,
   stopTimer_ok_fail s c auto now fs t hget hfs⟩

theorem c7_log_failure_swallowed_witness :
    (startTimer 1 tN2 fsOpenFail runState).fileLog = runState.fileLog ∧
    (startTimer 1 tN2 fsOpenFail runState).sent =
      runState.sent ++ [(1, startedMsg runTimer.name runTimer.duration)] ∧
    (stopTimer 1 false tN2 fsOpenFail runState).store = mapDel runState.store 1 ∧
    (stopTimer 1 false tN2 fsOpenFail runState).fileLog = runState.fileLog := by
  have h := c7_log_failure_swallowed runState 1 tN2 fsOpenFail runTimer false rfl
    (by decide) (by decide) (Or.inl rfl)
  exact ⟨h.1.2.1, h.1.2.2.2.1, h.2.1, h.2.2.1⟩

/-- C8: the Go map keeps at most one entry per session: key-uniqueness of
the store is preserved by every operation of the program, and a second
BeginSetup overwrites the session's entry with a fresh empty Timer —
leaving the store exactly as after a single BeginSetup, with exactly one
entry for the session — rather than appending a duplicate. -/
theorem c8_store_at_most_one (s : GoState) (c c2 : Int) (input : String)
    (now : GoTime) (fs : FsEnv) (auto : Bool) (hwf : wfKeys s.store) :
    wfKeys (beginSetup c s).store ∧
    wfKeys (handleMessage c2 input s).store ∧
    wfKeys (startTimer c now fs s).store ∧
    wfKeys (stopTimer c auto now fs s).store ∧
    wfKeys (expiryWake c now fs s).store ∧
    (beginSetup c (beginSetup c s)).store = (beginSetup c s).store ∧
    mapGet (beginSetup c (beginSetup c s)).store c = some emptyTimer ∧
    keyCount (beginSetup c (beginSetup c s)).store c = 1 := by
  refine ⟨wfKeys_mapPut s.store c emptyTimer hwf,
    wf_handleMessage c2 input s hwf,
    wf_startTimer c now fs s hwf,
    wf_stopTimer c auto now fs s hwf,
    wf_expiryWake c now fs s hwf, ?_, ?_, ?_⟩
  · show mapPut (mapPut s.store c emptyTimer) c emptyTimer = mapPut s.store c emptyTimer
    exact mapPut_mapPut_self s.store c emptyTimer emptyTimer
  · show mapGet (mapPut (mapPut s.store c emptyTimer) c emptyTimer) c = some emptyTimer
    exact mapGet_mapPut_self (mapPut s.store c emptyTimer) c emptyTimer
  · show keyCount (mapPut (mapPut s.store c emptyTimer) c emptyTimer) c = 1
    exact keyCount_mapPut_self (mapPut s.store c emptyTimer) c emptyTimer
      (wfKeys_mapPut s.store c emptyTimer hwf)

theorem c8_store_at_most_one_witness :
    wfKeys (beginSetup 1 runState).store ∧
    (beginSetup 1 (beginSetup 1 runState)).store = (beginSetup 1 runState).store ∧
    keyCount (beginSetup 1 (beginSetup 1 runState)).store 1 = 1 := by
  have h := c8_store_at_most_one runState 1 1 "" tN1 fsOk false (by decide)
  exact ⟨h.1, h.2.2.2.2.2.1, h.2.2.2.2.2.2.2⟩

/-- C9: the Confirm guard only checks existence, a nonempty name and a
nonzero duration, so a session whose timer is already RUNNING accepts a
further Confirm: `start_time` is overwritten with the new now, a second
start entry is appended to the log, the success notice is sent again, and
a second auto-expiry countdown is spawned for the same session. -/
theorem c9_reconfirm_running (s : GoState) (c : Int) (now2 : GoTime) (t : Timer)
    (hget : mapGet s.store c = some t) (hn : t.name ≠ "") (hd : t.duration ≠ 0)
    (hstarted : t.startTime ≠ zeroTime) (hlive : t.stopTime = none) :
    startTimer c now2 fsOk s =
      { s with store := mapPut s.store c { t with startTime := now2 },
               fileLog := s.fileLog ++ [entryString { t with startTime := now2 } "Запуск"],
               sent := s.sent ++ [(c, startedMsg t.name t.duration)],
               spawned := s.spawned ++ [(c, t.duration)] } :=
  startTimer_ok_fsOk s c now2 t hget hn hd

theorem c9_reconfirm_running_witness :
    startTimer 1 tN2 fsOk runState =
      { runState with
          store := mapPut runState.store 1 { runTimer with startTime := tN2 },
          fileLog := runState.fileLog ++ [entryString { runTimer with startTime := tN2 } "Запуск"],
          sent := runState.sent ++ [(1, startedMsg runTimer.name runTimer.duration)],
          spawned := runState.spawned ++ [(1, runTimer.duration)] } ∧
    (startTimer 1 tN2 fsOk runState).spawned = [(1, 120000000000), (1, 120000000000)] := by
  have h := c9_reconfirm_running runState 1 tN2 runTimer rfl (by decide) (by decide)
    (by decide) rfl
  refine ⟨h, ?_⟩
  rw [h]
  decide

/-- C10: `stopTimer` never looks at `start_time`, so a stored timer that
never entered RUNNING (`start_time` still the zero value) is stopped all
the same: `stop_time` is set, one stop entry whose start field renders as
the zero-value timestamp `0001-01-01 00:00:00` is appended, the entry is
removed from the store, and completion is reported. -/
theorem c10_stop_unstarted (s : GoState) (c : Int) (now : GoTime) (t : Timer)
    (hget : mapGet s.store c = some t) (hz : t.startTime = zeroTime) :
    stopTimer c false now fsOk s =
      { s with store := mapDel s.store c,
               fileLog := s.fileLog ++
                 [entryString { t with stopTime := some now } "Остановлен"],
               sent := s.sent ++ [(c, stoppedMsg t.name false)] } ∧
    goFormat { t with stopTime := some now }.startTime = "0001-01-01 00:00:00" := by
  refine ⟨stopTimer_ok_fsOk s c false now t hget, ?_⟩
  show goFormat t.startTime = _
  rw [hz]
  decide

theorem c10_stop_unstarted_witness :
    stopTimer 1 false tN1 fsOk sizingState =
      { sizingState with
          store := mapDel sizingState.store 1,
          fileLog := sizingState.fileLog ++
            [entryString { sizingTimer with stopTime := some tN1 } "Остановлен"],
          sent := sizingState.sent ++ [(1, stoppedMsg sizingTimer.name false)] } ∧
    entryString { sizingTimer with stopTime := some tN1 } "Остановлен" =
      "Остановлен | Название: x | Начало: 0001-01-01 00:00:00 | Окончание: 2024-03-01 10:00:00\n" :=
  ⟨(c10_stop_unstarted sizingState 1 tN1 sizingTimer rfl rfl).1, by decide⟩

end TimerBot
